import Mathlib

/-!
Verification development for the `boundaries` Django application
(files `boundaries/management/commands/compute_intersections.py` and
`boundaries/views.py`).

The geometric engine (GEOS / the spatial database) is external to the
repository; it is modelled by abstract function parameters (`GIS`,
`TileEnv`).  Numbers are modelled by exact rationals `ℚ`.  Python dicts
are modelled as insertion-ordered association lists with the
overwrite-on-duplicate-key semantics of dict literals.
-/

namespace Bnd

/-! ## Data model shared by the command (`compute_intersections.py`) -/

/-- An opaque geometry handle as stored in the `shape` column.  Only the
observations the command makes of a geometry are modelled: its `area`
and whether it `isEmpty`; `gid` is an opaque payload distinguishing
geometries with equal observations. -/
structure Shape where
  gid : Nat
  area : ℚ
  isEmpty : Bool
deriving DecidableEq, Repr

/-- A row of the `Boundary` table, with the fields the command reads. -/
structure Boundary where
  slug : String
  external_id : String
  name : String
  shape : Shape
  centroid : ℚ × ℚ
  extent : ℚ × ℚ × ℚ × ℚ
  metadata : String
deriving DecidableEq, Repr

/-- A row of the `BoundarySet` table together with its related
boundaries (`bset.boundaries`). -/
structure BoundarySet where
  slug : String
  boundaries : List Boundary
deriving DecidableEq, Repr

/-- The external geometry engine: the database spatial predicate
`shape__intersects` and the GEOS `intersection` operation, which may
raise (modelled by `Except`; the `String` is the exception text). -/
structure GIS where
  intersects : Shape → Shape → Bool
  intersection : Shape → Shape → Except String Shape

/-- One CSV line printed by `print a_slug, a_area, b_bdry.slug, b_area,
int_area, int_area/a_area, int_area/b_area`. -/
structure CsvRow where
  slug1 : String
  area1 : ℚ
  slug2 : String
  area2 : ℚ
  int_area : ℚ
  pct1 : ℚ
  pct2 : ℚ
deriving DecidableEq, Repr

/-- The per-side sub-dict of a JSON record (`id`, `name`, `slug`,
`centroid`, `extent`, `area`, `ratio`, optional `metadata`). -/
structure SideRec where
  id : String
  name : String
  slug : String
  centroid : ℚ × ℚ
  extent : ℚ × ℚ × ℚ × ℚ
  area : ℚ
  ratio : ℚ
  metadata : Option String
deriving DecidableEq, Repr

/-- A value of the JSON record dict: the top-level `"area"` number or a
per-side sub-dict. -/
inductive JVal where
  | num (q : ℚ)
  | side (s : SideRec)
deriving DecidableEq, Repr

/-- A Python dict, as an insertion-ordered association list. -/
abbrev JRecord := List (String × JVal)

/-- Python dict insertion: an existing key keeps its position and gets
the new value; a fresh key is appended. -/
def pyInsert (d : JRecord) (k : String) (v : JVal) : JRecord :=
  if d.any (fun e => e.1 = k) then
    d.map (fun e => if e.1 = k then (k, v) else e)
  else
    d ++ [(k, v)]

/-- A Python dict literal `{k₁: v₁, …, kₙ: vₙ}`: successive insertion
into an empty dict, so a duplicate key keeps the *last* value. -/
def pyDict (ps : List (String × JVal)) : JRecord :=
  ps.foldl (fun d kv => pyInsert d kv.1 kv.2) []

/-- `output[-1][k]["metadata"] = m`: update the sub-dict stored at key
`k` in place. -/
def setSideMeta (d : JRecord) (k : String) (m : String) : JRecord :=
  d.map (fun e =>
    if e.1 = k then
      (e.1, match e.2 with
            | .side s => .side { s with metadata := some m }
            | v => v)
    else e)

/-- The JSON record appended for a surviving pair: the dict literal of
lines 63–83, followed by the two metadata assignments of lines 84–86
when `--metadata` was passed. -/
def mkJRecord (includeMetadata : Bool) (aslug bslug : String)
    (a b : Boundary) (int_area : ℚ) : JRecord :=
  let a_area := a.shape.area
  let b_area := b.shape.area
  let base := pyDict
    [ ("area", .num int_area),
      (aslug, .side ⟨a.external_id, a.name, a.slug, a.centroid, a.extent,
                     a_area, int_area / a_area, none⟩),
      (bslug, .side ⟨b.external_id, b.name, b.slug, b.centroid, b.extent,
                     b_area, int_area / b_area, none⟩) ]
  if includeMetadata then
    setSideMeta (setSideMeta base aslug a.metadata) bslug b.metadata
  else base

/-- State threaded through the nested loops of `Command.handle`: the
CSV lines printed so far, the JSON `output` list, and the lines written
to `sys.stderr`. -/
structure LoopState where
  csv : List CsvRow
  json : List JRecord
  err : List String
deriving DecidableEq, Repr

/-- The body of the inner loop of `Command.handle` (lines 44–86) for
one pair `(a, b)`: try the intersection (on exception, log to stderr
and continue); skip empty intersections; skip overlaps below 0.1 % of
either area; otherwise emit a CSV row or append a JSON record
according to `fmt`. -/
def pairStep (gis : GIS) (fmt : String) (includeMetadata : Bool)
    (aslug bslug : String) (a b : Boundary) (s : LoopState) : LoopState :=
  match gis.intersection a.shape b.shape with
  | .error e =>
      { s with err := s.err ++ [a.slug ++ "/" ++ b.slug ++ ": " ++ e] }
  | .ok g =>
      let int_area := g.area
      if g.isEmpty then s
      else
        let a_area := a.shape.area
        let b_area := b.shape.area
        if int_area / a_area < 1/1000 ∨ int_area / b_area < 1/1000 then s
        else if fmt = "csv" then
          { s with csv := s.csv ++
              [⟨a.slug, a_area, b.slug, b_area, int_area,
                int_area / a_area, int_area / b_area⟩] }
        else if fmt = "json" then
          { s with json := s.json ++
              [mkJRecord includeMetadata aslug bslug a b int_area] }
        else s

/-- Insertion into a slug-sorted list (model of `order_by("slug")`). -/
def insertBySlug (a : Boundary) : List Boundary → List Boundary
  | [] => [a]
  | b :: bs => if a.slug ≤ b.slug then a :: b :: bs else b :: insertBySlug a bs

/-- `bset_a.boundaries.order_by("slug")`. -/
def sortBoundaries (l : List Boundary) : List Boundary :=
  l.foldr insertBySlug []

/-- `bset_b.boundaries.filter(shape__intersects=a_bdry.shape)`. -/
def bMatches (gis : GIS) (B : BoundarySet) (a : Boundary) : List Boundary :=
  B.boundaries.filter (fun b => gis.intersects b.shape a.shape)

/-- The nested loops of `Command.handle` (lines 36–86). -/
def runPairs (gis : GIS) (fmt : String) (includeMetadata : Bool)
    (A B : BoundarySet) : LoopState :=
  (sortBoundaries A.boundaries).foldl
    (fun s a =>
      (bMatches gis B a).foldl
        (fun s b => pairStep gis fmt includeMetadata A.slug B.slug a b s) s)
    ⟨[], [], []⟩

/-- Everything `Command.handle` sends to its output streams. -/
structure HandleOut where
  messages : List String
  csvHeader : Option (List String)
  csv : List CsvRow
  jsonPrinted : Option (List JRecord)
  err : List String
deriving DecidableEq, Repr

/-- `BoundarySet.objects.get(slug=...)`: raises `DoesNotExist`
(modelled by `Except.error`) when no set has the slug. -/
def getBoundarySet (db : List BoundarySet) (slug : String) :
    Except String BoundarySet :=
  match db.find? (fun s => s.slug = slug) with
  | some s => .ok s
  | none => .error "BoundarySet matching query does not exist."

/-- `Command.handle` (lines 22–89).  An `Except.error` result is an
uncaught Python exception aborting the command. -/
def handle (gis : GIS) (db : List BoundarySet) (args : List String)
    (fmt : String) (includeMetadata : Bool) : Except String HandleOut :=
  match args with
  | a0 :: a1 :: _ =>
    match getBoundarySet db a0 with
    | .error e => .error e
    | .ok A =>
      match getBoundarySet db a1 with
      | .error e => .error e
      | .ok B =>
        let header :=
          if fmt = "csv" then
            some [A.slug, "area_1", B.slug, "area_2",
                  "area_intersection", "pct_of_1", "pct_of_2"]
          else none
        let st := runPairs gis fmt includeMetadata A B
        .ok ⟨[], header, st.csv,
             if fmt = "json" then some st.json else none, st.err⟩
  | _ => .ok ⟨["Specify two boundaryset slugs."], none, [], none, []⟩

/-! ### Characterisation of the loop -/

/-- The noise filter of lines 44–58 for one pair: `some g` exactly when
the pair survives (intersection succeeded, non-empty, both ratios at
least 0.1 %). -/
def pairFilter (gis : GIS) (a b : Boundary) : Option Shape :=
  match gis.intersection a.shape b.shape with
  | .error _ => none
  | .ok g =>
      if g.isEmpty then none
      else if g.area / a.shape.area < 1/1000 ∨
              g.area / b.shape.area < 1/1000 then none
      else some g

/-- The CSV row emitted for a surviving pair. -/
def csvRowOf (a b : Boundary) (g : Shape) : CsvRow :=
  ⟨a.slug, a.shape.area, b.slug, b.shape.area, g.area,
   g.area / a.shape.area, g.area / b.shape.area⟩

/-- The stderr line produced by a failing pair, if any. -/
def errEmit (gis : GIS) (a b : Boundary) : Option String :=
  match gis.intersection a.shape b.shape with
  | .error e => some (a.slug ++ "/" ++ b.slug ++ ": " ++ e)
  | .ok _ => none

/-- The surviving pairs, in emission order, with their intersection
geometry.  This is the format-independent reading of the spec's
"pairs (A, B) of intersecting boundaries" that pass the noise filter. -/
def survivors (gis : GIS) (A B : BoundarySet) :
    List (Boundary × Boundary × Shape) :=
  (sortBoundaries A.boundaries).flatMap (fun a =>
    (bMatches gis B a).filterMap (fun b =>
      (pairFilter gis a b).map (fun g => (a, b, g))))

theorem pairStep_char (gis : GIS) (fmt : String) (m : Bool)
    (aslug bslug : String) (a b : Boundary) (s : LoopState) :
    pairStep gis fmt m aslug bslug a b s =
      ⟨s.csv ++ (if fmt = "csv" then
          ((pairFilter gis a b).map (csvRowOf a b)).toList else []),
       s.json ++ (if fmt = "json" then
          ((pairFilter gis a b).map
            (fun g => mkJRecord m aslug bslug a b g.area)).toList else []),
       s.err ++ (errEmit gis a b).toList⟩ := by
  unfold pairStep pairFilter errEmit csvRowOf
  cases h : gis.intersection a.shape b.shape with
  | error e => simp
  | ok g =>
      by_cases hg : g.isEmpty <;>
        simp only [hg, if_true, if_false, Bool.false_eq_true, ite_self,
          Option.map_none, Option.toList_none, List.append_nil] <;>
      [skip;
       by_cases hr : g.area / a.shape.area < 1/1000 ∨
           g.area / b.shape.area < 1/1000]
      · cases s; simp
      · simp only [if_pos hr, Option.map_none, Option.toList_none,
          List.append_nil, ite_self]
        cases s; simp
      · simp only [if_neg hr, Option.map_some, Option.toList_some]
        by_cases hc : fmt = "csv"
        · simp [hc]
        · by_cases hj : fmt = "json" <;> cases s <;> simp [hc, hj]

theorem foldB_char (gis : GIS) (fmt : String) (m : Bool)
    (aslug bslug : String) (a : Boundary) (bs : List Boundary) (s : LoopState) :
    bs.foldl (fun s b => pairStep gis fmt m aslug bslug a b s) s =
      ⟨s.csv ++ (if fmt = "csv" then
          bs.filterMap (fun b => (pairFilter gis a b).map (csvRowOf a b)) else []),
       s.json ++ (if fmt = "json" then
          bs.filterMap (fun b => (pairFilter gis a b).map
            (fun g => mkJRecord m aslug bslug a b g.area)) else []),
       s.err ++ bs.filterMap (errEmit gis a)⟩ := by
  induction bs generalizing s with
  | nil => simp [ite_self]
  | cons b bs ih =>
      rw [List.foldl_cons, ih, pairStep_char]
      simp only [List.filterMap_cons]
      cases hf : pairFilter gis a b <;> cases he : errEmit gis a b <;>
        by_cases hc : fmt = "csv" <;> by_cases hj : fmt = "json" <;>
          simp [hc, hj, List.append_assoc]

theorem foldA_char (gis : GIS) (fmt : String) (m : Bool)
    (A B : BoundarySet) (as' : List Boundary) (s : LoopState) :
    as'.foldl (fun s a => (bMatches gis B a).foldl
        (fun s b => pairStep gis fmt m A.slug B.slug a b s) s) s =
      ⟨s.csv ++ (if fmt = "csv" then
          as'.flatMap (fun a => (bMatches gis B a).filterMap
            (fun b => (pairFilter gis a b).map (csvRowOf a b))) else []),
       s.json ++ (if fmt = "json" then
          as'.flatMap (fun a => (bMatches gis B a).filterMap
            (fun b => (pairFilter gis a b).map
              (fun g => mkJRecord m A.slug B.slug a b g.area))) else []),
       s.err ++ as'.flatMap (fun a =>
          (bMatches gis B a).filterMap (errEmit gis a))⟩ := by
  induction as' generalizing s with
  | nil => simp [ite_self]
  | cons a as ih =>
      rw [List.foldl_cons, foldB_char, ih]
      simp only [List.flatMap_cons]
      by_cases hc : fmt = "csv" <;> by_cases hj : fmt = "json" <;>
        simp [hc, hj, List.append_assoc]

theorem survivors_map_csv (gis : GIS) (A B : BoundarySet) :
    (survivors gis A B).map (fun t => csvRowOf t.1 t.2.1 t.2.2) =
      (sortBoundaries A.boundaries).flatMap (fun a =>
        (bMatches gis B a).filterMap
          (fun b => (pairFilter gis a b).map (csvRowOf a b))) := by
  unfold survivors
  rw [List.map_flatMap]
  congr 1; funext a
  rw [List.map_filterMap]
  congr 1; funext b
  cases pairFilter gis a b <;> simp

theorem survivors_map_json (gis : GIS) (m : Bool) (A B : BoundarySet) :
    (survivors gis A B).map
        (fun t => mkJRecord m A.slug B.slug t.1 t.2.1 t.2.2.area) =
      (sortBoundaries A.boundaries).flatMap (fun a =>
        (bMatches gis B a).filterMap
          (fun b => (pairFilter gis a b).map
            (fun g => mkJRecord m A.slug B.slug a b g.area))) := by
  unfold survivors
  rw [List.map_flatMap]
  congr 1; funext a
  rw [List.map_filterMap]
  congr 1; funext b
  cases pairFilter gis a b <;> simp

/-- The two loops of `runPairs` characterised: the CSV lines (for
format `csv`) and the JSON records (for format `json`) are renderings
of one and the same list of surviving pairs. -/
theorem runPairs_char (gis : GIS) (fmt : String) (m : Bool)
    (A B : BoundarySet) :
    runPairs gis fmt m A B =
      ⟨(if fmt = "csv" then (survivors gis A B).map
          (fun t => csvRowOf t.1 t.2.1 t.2.2) else []),
       (if fmt = "json" then (survivors gis A B).map
          (fun t => mkJRecord m A.slug B.slug t.1 t.2.1 t.2.2.area) else []),
       (sortBoundaries A.boundaries).flatMap (fun a =>
          (bMatches gis B a).filterMap (errEmit gis a))⟩ := by
  unfold runPairs
  rw [foldA_char]
  rw [survivors_map_csv, survivors_map_json]
  simp

theorem mem_survivors (gis : GIS) (A B : BoundarySet)
    (t : Boundary × Boundary × Shape) (h : t ∈ survivors gis A B) :
    pairFilter gis t.1 t.2.1 = some t.2.2 := by
  unfold survivors at h
  rw [List.mem_flatMap] at h
  obtain ⟨a, _, h⟩ := h
  rw [List.mem_filterMap] at h
  obtain ⟨b, _, h⟩ := h
  cases hf : pairFilter gis a b with
  | none => rw [hf] at h; simp at h
  | some g =>
      rw [hf] at h
      rw [Option.map_some'] at h
      obtain rfl := Option.some.inj h
      exact hf

theorem pairFilter_some (gis : GIS) (a b : Boundary) (g : Shape)
    (h : pairFilter gis a b = some g) :
    gis.intersection a.shape b.shape = .ok g ∧ g.isEmpty = false ∧
      1/1000 ≤ g.area / a.shape.area ∧ 1/1000 ≤ g.area / b.shape.area := by
  unfold pairFilter at h
  split at h
  next e heq => exact Option.noConfusion h
  next g' heq =>
    split_ifs at h with h1 h2
    obtain rfl := Option.some.inj h
    push_neg at h2
    exact ⟨heq, by simpa using h1, h2.1, h2.2⟩

/-! ### Concrete fixtures used by witnesses and counterexamples -/

def exShapeA : Shape := ⟨0, 1000, false⟩

def exShapeB : Shape := ⟨1, 1000, false⟩

def exInter : Shape := ⟨2, 1, false⟩

def exGIS : GIS := ⟨fun _ _ => true, fun _ _ => .ok exInter⟩

def exErrGIS : GIS := ⟨fun _ _ => true, fun _ _ => .error "Self-intersection"⟩

def exBdryA : Boundary := ⟨"a", "idA", "Alpha", exShapeA, (0, 0), (0, 0, 0, 0), "metaA"⟩

def exBdryB : Boundary := ⟨"b", "idB", "Beta", exShapeB, (0, 0), (0, 0, 0, 0), "metaB"⟩

def exSetA : BoundarySet := ⟨"seta", [exBdryA]⟩

def exSetB : BoundarySet := ⟨"setb", [exBdryB]⟩

def exSetA2 : BoundarySet := ⟨"seta", [exBdryB]⟩

def exDb : List BoundarySet := [exSetA, exSetB]

def exRow : CsvRow := ⟨"a", 1000, "b", 1000, 1, 1/1000, 1/1000⟩

theorem exPairFilter : pairFilter exGIS exBdryA exBdryB = some exInter := by
  simp only [pairFilter, exGIS, exBdryA, exBdryB, exShapeA, exShapeB, exInter]
  norm_num

theorem exIntersects (a b : Shape) : exGIS.intersects a b = true := rfl

theorem exSurvivors :
    survivors exGIS exSetA exSetB = [(exBdryA, exBdryB, exInter)] := by
  simp [survivors, sortBoundaries, insertBySlug, bMatches,
    exSetA, exSetB, exIntersects, exPairFilter]

theorem exCsvRow : csvRowOf exBdryA exBdryB exInter = exRow := by
  simp only [csvRowOf, exRow, exBdryA, exBdryB, exShapeA, exShapeB, exInter]

theorem exRunCsv :
    (runPairs exGIS "csv" false exSetA exSetB).csv = [exRow] := by
  rw [runPairs_char, exSurvivors]
  simp [exCsvRow]

theorem exHandleCsv :
    handle exGIS exDb ["seta", "setb"] "csv" false =
      .ok ⟨[], some ["seta", "area_1", "setb", "area_2",
                     "area_intersection", "pct_of_1", "pct_of_2"],
           [exRow], none, []⟩ := by
  have h1 : getBoundarySet exDb "seta" = .ok exSetA := rfl
  have h2 : getBoundarySet exDb "setb" = .ok exSetB := rfl
  simp only [handle, h1, h2, runPairs_char, exSurvivors]
  simp [exCsvRow, exSetA, exSetB, sortBoundaries, insertBySlug, bMatches,
    exIntersects, errEmit, exGIS]

/-! ### Claim theorems for `compute_intersections.py` -/

/-- C1 (amended): every emitted CSV row's ratio fields equal
`int_area/a_area` and `int_area/b_area` and are **at least** 0.001
(the code keeps a pair whose ratio is exactly 0.001, since it skips
only on `< .001`); the JSON records are exactly the records of the
surviving pairs, whose ratios are at least 0.001; and a pair whose
intersection is empty or whose ratio against either area is below
0.001 changes nothing (it is discarded and never emitted). -/
theorem intersection_report_ratio_fields (gis : GIS) (A B : BoundarySet)
    (m : Bool) (fmt : String) :
    (∀ r ∈ (runPairs gis "csv" m A B).csv,
        r.pct1 = r.int_area / r.area1 ∧ r.pct2 = r.int_area / r.area2 ∧
        1/1000 ≤ r.pct1 ∧ 1/1000 ≤ r.pct2) ∧
    ((runPairs gis "json" m A B).json = (survivors gis A B).map
        (fun t => mkJRecord m A.slug B.slug t.1 t.2.1 t.2.2.area)) ∧
    (∀ t ∈ survivors gis A B,
        1/1000 ≤ t.2.2.area / t.1.shape.area ∧
        1/1000 ≤ t.2.2.area / t.2.1.shape.area) ∧
    (∀ (a b : Boundary) (g : Shape) (s : LoopState),
        gis.intersection a.shape b.shape = .ok g →
        (g.isEmpty = true ∨ g.area / a.shape.area < 1/1000 ∨
            g.area / b.shape.area < 1/1000) →
        pairStep gis fmt m A.slug B.slug a b s = s) := by
  refine ⟨?_, ?_, ?_, ?_⟩
  · intro r hr
    rw [runPairs_char] at hr
    simp at hr
    obtain ⟨ta, tb, tg, hmem, rfl⟩ := hr
    have hf := pairFilter_some gis ta tb tg
      (mem_survivors gis A B (ta, tb, tg) hmem)
    exact ⟨rfl, rfl, hf.2.2.1, hf.2.2.2⟩
  · rw [runPairs_char]
    simp
  · intro t ht
    have hf := pairFilter_some gis t.1 t.2.1 t.2.2
      (mem_survivors gis A B t ht)
    exact ⟨hf.2.2.1, hf.2.2.2⟩
  · intro a b g s hok hbad
    have hnone : pairFilter gis a b = none := by
      by_cases h1 : g.isEmpty
      · simp [pairFilter, hok, h1]
      · rcases hbad with h | h | h
        · exact absurd h h1
        · simp only [pairFilter, hok, h1]
          simp
          intro hle
          exact absurd h (not_lt.mpr (by linarith))
        · simp only [pairFilter, hok, h1]
          simp
          intro _
          linarith
    have herr : errEmit gis a b = none := by
      unfold errEmit
      rw [hok]
    rw [pairStep_char, hnone, herr]
    simp [ite_self]

/-- C1 witness: a concrete emitted row with the stated ratio fields. -/
theorem intersection_report_ratio_fields_witness :
    exRow.pct1 = exRow.int_area / exRow.area1 ∧
    exRow.pct2 = exRow.int_area / exRow.area2 ∧
    1/1000 ≤ exRow.pct1 ∧ 1/1000 ≤ exRow.pct2 :=
  (intersection_report_ratio_fields exGIS exSetA exSetB false "csv").1
    exRow (by rw [exRunCsv]; exact List.mem_singleton.mpr rfl)

/-- C1 counterexample: the claim's strict bound fails.  With areas 1000
and intersection area 1 the ratio is exactly 0.001; the pair is emitted
although its ratio does not *exceed* 0.001. -/
theorem ratio_exactly_threshold_emitted :
    ∃ o, handle exGIS exDb ["seta", "setb"] "csv" false = .ok o ∧
      ∃ r ∈ o.csv, ¬(1/1000 < r.pct1) := by
  refine ⟨_, exHandleCsv, exRow, by simp, by norm_num [exRow]⟩

/-- C2: over the same two boundary sets the CSV run and the JSON run
emit renderings of one and the same list of surviving pairs, so a pair
appears as a CSV row iff it appears as a JSON record. -/
theorem csv_json_same_pairs (gis : GIS) (db : List BoundarySet)
    (a0 a1 : String) (rest : List String) (m : Bool) (A B : BoundarySet)
    (hA : getBoundarySet db a0 = .ok A) (hB : getBoundarySet db a1 = .ok B) :
    ∃ oc oj,
      handle gis db (a0 :: a1 :: rest) "csv" m = .ok oc ∧
      handle gis db (a0 :: a1 :: rest) "json" m = .ok oj ∧
      oc.jsonPrinted = none ∧ oj.csv = [] ∧
      oc.csv = (survivors gis A B).map (fun t => csvRowOf t.1 t.2.1 t.2.2) ∧
      oj.jsonPrinted = some ((survivors gis A B).map
        (fun t => mkJRecord m A.slug B.slug t.1 t.2.1 t.2.2.area)) := by
  have hc : handle gis db (a0 :: a1 :: rest) "csv" m = .ok
      ⟨[], some [A.slug, "area_1", B.slug, "area_2",
                 "area_intersection", "pct_of_1", "pct_of_2"],
       (survivors gis A B).map (fun t => csvRowOf t.1 t.2.1 t.2.2),
       none,
       (sortBoundaries A.boundaries).flatMap (fun a =>
          (bMatches gis B a).filterMap (errEmit gis a))⟩ := by
    simp only [handle, hA, hB, runPairs_char]
    simp
  have hj : handle gis db (a0 :: a1 :: rest) "json" m = .ok
      ⟨[], none, [],
       some ((survivors gis A B).map
          (fun t => mkJRecord m A.slug B.slug t.1 t.2.1 t.2.2.area)),
       (sortBoundaries A.boundaries).flatMap (fun a =>
          (bMatches gis B a).filterMap (errEmit gis a))⟩ := by
    simp only [handle, hA, hB, runPairs_char]
    simp
  exact ⟨_, _, hc, hj, rfl, rfl, rfl, rfl⟩

/-- C2 witness at a concrete database. -/
theorem csv_json_same_pairs_witness :
    ∃ oc oj,
      handle exGIS exDb ["seta", "setb"] "csv" false = .ok oc ∧
      handle exGIS exDb ["seta", "setb"] "json" false = .ok oj ∧
      oc.jsonPrinted = none ∧ oj.csv = [] ∧
      oc.csv = (survivors exGIS exSetA exSetB).map
        (fun t => csvRowOf t.1 t.2.1 t.2.2) ∧
      oj.jsonPrinted = some ((survivors exGIS exSetA exSetB).map
        (fun t => mkJRecord false exSetA.slug exSetB.slug t.1 t.2.1 t.2.2.area)) :=
  csv_json_same_pairs exGIS exDb "seta" "setb" [] false exSetA exSetB
    rfl rfl

/-- C3: an exception in the intersection computation for a pair is
caught for that pair only: the loop state gains exactly one stderr line
naming the pair, nothing is emitted for it, the fold continues over the
remaining pairs, and `handle` still returns normally whenever both sets
resolve. -/
theorem intersection_exception_per_pair (gis : GIS) (fmt : String) (m : Bool)
    (aslug bslug : String) (a b : Boundary) (e : String) (s : LoopState)
    (he : gis.intersection a.shape b.shape = .error e) :
    pairStep gis fmt m aslug bslug a b s =
      { s with err := s.err ++ [a.slug ++ "/" ++ b.slug ++ ": " ++ e] } ∧
    (∀ (bs1 bs2 : List Boundary),
      (bs1 ++ b :: bs2).foldl
          (fun s x => pairStep gis fmt m aslug bslug a x s) s =
        bs2.foldl (fun s x => pairStep gis fmt m aslug bslug a x s)
          { (bs1.foldl (fun s x => pairStep gis fmt m aslug bslug a x s) s) with
            err := (bs1.foldl
                (fun s x => pairStep gis fmt m aslug bslug a x s) s).err
              ++ [a.slug ++ "/" ++ b.slug ++ ": " ++ e] }) ∧
    (∀ (db : List BoundarySet) (a0 a1 : String) (rest : List String)
        (A B : BoundarySet),
      getBoundarySet db a0 = .ok A → getBoundarySet db a1 = .ok B →
      ∃ o, handle gis db (a0 :: a1 :: rest) fmt m = .ok o) := by
  have h1 : ∀ s' : LoopState, pairStep gis fmt m aslug bslug a b s' =
      { s' with err := s'.err ++ [a.slug ++ "/" ++ b.slug ++ ": " ++ e] } := by
    intro s'
    unfold pairStep
    rw [he]
  refine ⟨h1 s, ?_, ?_⟩
  · intro bs1 bs2
    rw [List.foldl_append, List.foldl_cons, h1]
  · intro db a0 a1 rest A B hA hB
    simp only [handle, hA, hB]
    exact ⟨_, rfl⟩

/-- C3 witness: a concrete pair whose intersection raises. -/
theorem intersection_exception_per_pair_witness :
    pairStep exErrGIS "csv" false "seta" "setb" exBdryA exBdryB ⟨[], [], []⟩ =
      ⟨[], [], ["a/b: Self-intersection"]⟩ := by
  rw [(intersection_exception_per_pair exErrGIS "csv" false "seta" "setb"
    exBdryA exBdryB "Self-intersection" ⟨[], [], []⟩ rfl).1]
  decide

/-- C4 (amended): with fewer than two positional arguments the command
prints `Specify two boundaryset slugs.` and returns normally, but when
a given slug names no existing `BoundarySet` the `objects.get` call
raises `DoesNotExist`, which `handle` does not catch, so the run is
aborted with an uncaught exception and no CLI message. -/
theorem handle_short_args_and_missing_set (gis : GIS) (db : List BoundarySet)
    (args : List String) (fmt : String) (m : Bool) :
    (args.length < 2 → handle gis db args fmt m =
        .ok ⟨["Specify two boundaryset slugs."], none, [], none, []⟩) ∧
    (∀ a0 a1 rest, args = a0 :: a1 :: rest →
        db.find? (fun s => s.slug = a0) = none →
        handle gis db args fmt m =
          .error "BoundarySet matching query does not exist.") ∧
    (∀ a0 a1 rest A, args = a0 :: a1 :: rest →
        getBoundarySet db a0 = .ok A →
        db.find? (fun s => s.slug = a1) = none →
        handle gis db args fmt m =
          .error "BoundarySet matching query does not exist.") := by
  refine ⟨?_, ?_, ?_⟩
  · intro h
    cases args with
    | nil => rfl
    | cons a0 t =>
      cases t with
      | nil => rfl
      | cons a1 r => simp only [List.length_cons] at h; omega
  · rintro a0 a1 rest rfl hf
    simp [handle, getBoundarySet, hf]
  · rintro a0 a1 rest A rfl hA hf
    have hfind : db.find? (fun s => s.slug = a0) = some A := by
      unfold getBoundarySet at hA
      split at hA
      next s heq => obtain rfl := Except.ok.inj hA; exact heq
      next heq => exact Except.noConfusion hA
    simp [handle, getBoundarySet, hfind, hf]

/-- C4 amended witness: one-argument call prints the message; a missing
second set aborts with the uncaught `DoesNotExist`. -/
theorem handle_short_args_and_missing_set_witness :
    handle exGIS exDb ["onlyone"] "csv" false =
      .ok ⟨["Specify two boundaryset slugs."], none, [], none, []⟩ ∧
    handle exGIS exDb ["seta", "missing"] "csv" false =
      .error "BoundarySet matching query does not exist." :=
  ⟨(handle_short_args_and_missing_set exGIS exDb ["onlyone"] "csv" false).1
      (by decide),
   (handle_short_args_and_missing_set exGIS exDb ["seta", "missing"] "csv"
      false).2.2 "seta" "missing" [] exSetA rfl rfl (by decide)⟩

/-- C4 counterexample: a slug naming no `BoundarySet` is fatal — the
command ends in an uncaught exception, not a printed CLI message. -/
theorem missing_set_is_fatal :
    handle exGIS [] ["nope", "nada"] "csv" false =
      .error "BoundarySet matching query does not exist." := rfl

/-- The per-side sub-dicts of a JSON record, in order. -/
def sideEntries (r : JRecord) : List (String × SideRec) :=
  r.filterMap (fun e =>
    match e.2 with
    | .side s => some (e.1, s)
    | .num _ => none)

/-- Key collision in the dict literal: with equal slugs the second
side's sub-dict overwrites the first, and both metadata assignments hit
the same entry, the second one last. -/
theorem mkJRecord_same_slug (m : Bool) (s : String) (a b : Boundary) (q : ℚ) :
    sideEntries (mkJRecord m s s a b q) =
      [(s, ⟨b.external_id, b.name, b.slug, b.centroid, b.extent,
            b.shape.area, q / b.shape.area,
            if m then some b.metadata else none⟩)] := by
  by_cases hs : "area" = s <;> cases m <;>
    simp [mkJRecord, pyDict, pyInsert, setSideMeta, sideEntries, hs]

/-- C10: in a JSON run over two boundary sets with equal slugs, every
emitted record is the record of some surviving pair in which both
per-boundary sub-records were keyed by the same slug, so the record
retains exactly one sub-record — the second (b) side's id, name, slug,
centroid, extent, area and ratio data. -/
theorem json_same_set_slug_overwrites (gis : GIS) (m : Bool)
    (A B : BoundarySet) (h : A.slug = B.slug) :
    ∀ r ∈ (runPairs gis "json" m A B).json, ∃ t ∈ survivors gis A B,
      r = mkJRecord m A.slug B.slug t.1 t.2.1 t.2.2.area ∧
      sideEntries r =
        [(B.slug, ⟨t.2.1.external_id, t.2.1.name, t.2.1.slug, t.2.1.centroid,
                   t.2.1.extent, t.2.1.shape.area,
                   t.2.2.area / t.2.1.shape.area,
                   if m then some t.2.1.metadata else none⟩)] := by
  intro r hr
  rw [runPairs_char] at hr
  simp at hr
  obtain ⟨ta, tb, tg, hmem, rfl⟩ := hr
  refine ⟨(ta, tb, tg), hmem, rfl, ?_⟩
  rw [h]
  exact mkJRecord_same_slug m B.slug ta tb tg.area

/-- C10 witness: a concrete JSON run where both positional arguments
name sets with the slug `seta`. -/
theorem json_same_set_slug_overwrites_witness :
    ∃ t ∈ survivors exGIS exSetA exSetA2,
      mkJRecord false exSetA.slug exSetA2.slug exBdryA exBdryB exInter.area =
        mkJRecord false exSetA.slug exSetA2.slug t.1 t.2.1 t.2.2.area ∧
      sideEntries (mkJRecord false exSetA.slug exSetA2.slug
          exBdryA exBdryB exInter.area) =
        [(exSetA2.slug,
          ⟨t.2.1.external_id, t.2.1.name, t.2.1.slug, t.2.1.centroid,
           t.2.1.extent, t.2.1.shape.area, t.2.2.area / t.2.1.shape.area,
           if false then some t.2.1.metadata else none⟩)] := by
  have hmem : mkJRecord false exSetA.slug exSetA2.slug
      exBdryA exBdryB exInter.area ∈
      (runPairs exGIS "json" false exSetA exSetA2).json := by
    rw [runPairs_char]
    have hsv : survivors exGIS exSetA exSetA2 = [(exBdryA, exBdryB, exInter)] := by
      simp [survivors, sortBoundaries, insertBySlug, bMatches,
        exSetA, exSetA2, exIntersects, exPairFilter]
    rw [hsv]
    simp
  exact json_same_set_slug_overwrites exGIS false exSetA exSetA2 rfl
    (mkJRecord false exSetA.slug exSetA2.slug exBdryA exBdryB exInter.area) hmem

/-! ## Map tile rendering (`boundaries_map_tiles` in `views.py`)

The spatial database, GDAL transforms, GEOS operations and cairo text
metrics are external; they appear as the abstract fields of `TileEnv`
(fixed per request, so the dependency on the output SRS is folded into
the environment).  Drawing is modelled by the list of drawing
operations issued to the cairo context. -/

/-- A bounding box `(xmin, ymin, xmax, ymax)`, as `bbox.extent`. -/
structure Extent where
  x1 : ℚ
  y1 : ℚ
  x2 : ℚ
  y2 : ℚ
deriving DecidableEq, Repr

abbrev Pt := ℚ × ℚ

abbrev LinearRing := List Pt

abbrev Poly := List LinearRing

abbrev MultiPoly := List Poly

/-- The result of `eval(bdry["color"])`: a 3- or 4-sequence for a solid
RGB(A) fill, a dict with `color1`/`color2` for the striped gradient, or
any other Python value. -/
inductive ColorVal where
  | tup (cs : List ℚ)
  | dict2 (c1 c2 : List ℚ)
  | other
deriving DecidableEq, Repr

/-- One row of the tile query
`.values("name", "label_point", "color", shape_field)` (plus the slug
used by the single-boundary filter).  `shape` holds whatever geometry
column the query selected. -/
structure TBoundary where
  slug : String
  name : String
  label_point : Option Pt
  color : Option ColorVal
  shape : MultiPoly
deriving DecidableEq, Repr

/-- The external engines for one tile request. -/
structure TileEnv where
  hasImaging : Bool
  tolerance : ℚ
  proj180x : ℚ
  transToDb : Extent → Extent
  query : String → Extent → String → List TBoundary
  simplify : MultiPoly → ℚ → MultiPoly
  toOutSRS : MultiPoly → MultiPoly
  ptToOut : Pt → Pt
  bboxInter : Extent → MultiPoly → Except Unit (ℚ × Pt)
  containsPt : MultiPoly → Pt → Bool
  textExtents : ℚ → String → ℚ × ℚ × ℚ × ℚ

/-- The tile request's GET parameters (absent parameter = `none`). -/
structure TileReq where
  size : Option String
  srs : Option String
  tile_x : Option String
  tile_y : Option String
  tile_zoom : Option String
deriving Repr

/-- A drawing operation issued to the cairo context.  For `text`, the
ink box is `[x + xoff, x + xoff + tw] × [y + yoff, y + yoff + th]`
(cairo `text_extents` semantics for `show_text` at `(x, y)`). -/
inductive DrawOp where
  | fillRing (pts : List Pt)
  | strokeRing (pts : List Pt) (w : ℚ)
  | fillRect (x y w h : ℚ)
  | text (x y : ℚ) (txt : String) (xoff yoff tw th : ℚ)
deriving DecidableEq, Repr

/-- The cairo image surface (fresh ARGB32 surfaces are transparent, so
an op-free surface is fully transparent). -/
structure Surface where
  width : Nat
  height : Nat
  ops : List DrawOp
deriving DecidableEq, Repr

structure HttpResponse where
  status : Nat
  contentType : String
  body : Surface
deriving DecidableEq, Repr

/-- Either `Http404(msg)` or a normal response. -/
inductive TileResult where
  | notFound (msg : String)
  | resp (r : HttpResponse)
deriving DecidableEq, Repr

/-- Helper for `pyParseInt`: decimal digits with an accumulator. -/
def digitsToNatAux : List Char → Nat → Option Nat
  | [], acc => some acc
  | c :: cs, acc =>
    if c.isDigit then digitsToNatAux cs (acc * 10 + (c.toNat - '0'.toNat))
    else none

/-- Model of Python `int(s)` on an optionally negated decimal string:
`none` models the `ValueError` raised on non-numeric input. -/
def pyParseInt (s : String) : Option Int :=
  match s.toList with
  | [] => none
  | '-' :: cs =>
    match cs with
    | [] => none
    | _ :: _ => (digitsToNatAux cs 0).map (fun n => -(n : Int))
  | cs => (digitsToNatAux cs 0).map (fun n => (n : Int))

/-- `int(request.GET.get(name, dflt))`. -/
def pyInt (v : Option String) (dflt : String) : Option Int :=
  pyParseInt (v.getD dflt)

/-- Lines 134–140: parse `size` (must be 256/512/1024) and `srs`;
`none` models the caught `ValueError` that raises `Http404`. -/
def parseSizeSrs (req : TileReq) : Option (Int × Int) :=
  match pyInt req.size "256" with
  | none => none
  | some size =>
    if size = 256 ∨ size = 512 ∨ size = 1024 then
      match pyInt req.srs "3857" with
      | none => none
      | some srs => some (size, srs)
    else none

/-- Lines 173–178: parse `tile_x`, `tile_y`, `tile_zoom`. -/
def parseTileNums (req : TileReq) : Option (Int × Int × Int) :=
  match pyInt req.tile_x "0", pyInt req.tile_y "0", pyInt req.tile_zoom "0" with
  | some x, some y, some z => some (x, y, z)
  | _, _, _ => none

/-- Lines 180–189: the tile's bounding box in the output SRS.
`proj180x` is the x coordinate of `Point(180, 0)` transformed to the
output SRS; the `Polygon(...).extent` normalisation is the min/max. -/
def tileBBox (proj180x : ℚ) (tx ty tz : Int) : Extent :=
  let world_left := -proj180x
  let world_top := -world_left
  let world_size := proj180x * 2
  let tile_world_size := world_size / (2 : ℚ) ^ tz
  let p1x := world_left + tile_world_size * tx
  let p1y := world_top - tile_world_size * ty
  let p2x := world_left + tile_world_size * (tx + 1)
  let p2y := world_top - tile_world_size * (ty + 1)
  ⟨min p1x p2x, min p1y p2y, max p1x p2x, max p1y p2y⟩

/-- Lines 194–200: world coordinates (output SRS) to pixel
coordinates. -/
def viewport (bbox : Extent) (size : ℚ) (c : Pt) : Pt :=
  let bx := size / (bbox.x2 - bbox.x1)
  let bYy := size / (bbox.y2 - bbox.y1)
  ((c.1 - bbox.x1) * bx, (size - 1) - (c.2 - bbox.y1) * bYy)

/-- Line 210: `(db_bbox.extent[2] - db_bbox.extent[0]) / size / 2`,
the quantity the code calls the width of a pixel in the database
SRS. -/
def pixelWidth (db_bbox : Extent) (size : ℚ) : ℚ :=
  (db_bbox.x2 - db_bbox.x1) / size / 2

/-- Lines 209–212: which geometry column the query loads. -/
def shapeFieldFor (tolerance pw : ℚ) : String :=
  if pw > tolerance then "simple_shape" else "shape"

/-- The geometric quantities fixed before the query. -/
structure GeomStage where
  bbox : Extent
  db_bbox : Extent
  pixel_width : ℚ
  shape_field : String
deriving Repr

def tileGeomStage (env : TileEnv) (size : ℚ) (tx ty tz : Int) : GeomStage :=
  let bbox := tileBBox env.proj180x tx ty tz
  let db_bbox := env.transToDb bbox
  let pw := pixelWidth db_bbox size
  ⟨bbox, db_bbox, pw, shapeFieldFor env.tolerance pw⟩

/-- Lines 216–218: the bounding-box query plus the optional
single-boundary filter. -/
def tileBoundaries (env : TileEnv) (set_slug : String)
    (boundary_slug : Option String) (size : ℚ) (tx ty tz : Int) :
    List TBoundary :=
  let g := tileGeomStage env size tx ty tz
  let bs := env.query set_slug g.db_bbox g.shape_field
  match boundary_slug with
  | some s => bs.filter (fun b => b.slug = s)
  | none => bs

/-- All vertices of a multipolygon. -/
def mpPoints (s : MultiPoly) : List Pt :=
  s.flatMap (fun p => p.flatMap (fun r => r))

/-- `shape.extent`. -/
def mpExtent (s : MultiPoly) : Extent :=
  match mpPoints s with
  | [] => ⟨0, 0, 0, 0⟩
  | p :: ps =>
      ps.foldl (fun e q => ⟨min e.x1 q.1, min e.y1 q.2,
                            max e.x2 q.1, max e.y2 q.2⟩)
        ⟨p.1, p.2, p.1, p.2⟩

/-- Lines 240–242: the larger side of the shape's extent. -/
def max_extent (s : MultiPoly) : ℚ :=
  let e := mpExtent s
  max (e.x2 - e.x1) (e.y2 - e.y1)

/-- Lines 246–270, one boundary: simplify to pixel detail, drop the
shape when its extent is below `pixel_width`, otherwise transform to
the output SRS and keep `(bdry, shape, ext_dim)`. -/
def mkDrawShape (env : TileEnv) (pw : ℚ) (b : TBoundary) :
    Option (TBoundary × MultiPoly × ℚ) :=
  let shape := env.simplify b.shape pw
  let ext_dim := max_extent shape
  if ext_dim < pw then none
  else some (b, env.toOutSRS shape, ext_dim)

/-- The `draw_shapes` list of lines 245–270. -/
def mkDrawShapes (env : TileEnv) (pw : ℚ) (bs : List TBoundary) :
    List (TBoundary × MultiPoly × ℚ) :=
  bs.filterMap (mkDrawShape env pw)

/-- Lines 273–309: the shading pass.  A falsy color skips the
boundary; a tuple color of length other than 3 or 4 and an unknown
color structure skip the ring. -/
def fillOps (bbox : Extent) (size : ℚ)
    (ds : List (TBoundary × MultiPoly × ℚ)) : List DrawOp :=
  ds.flatMap (fun t =>
    match t.1.color with
    | none => []
    | some c =>
      t.2.1.flatMap (fun polygon =>
        polygon.flatMap (fun ring =>
          match c with
          | .tup cs =>
              if cs.length = 3 ∨ cs.length = 4 then
                [.fillRing (ring.map (viewport bbox size))]
              else []
          | .dict2 _ _ => [.fillRing (ring.map (viewport bbox size))]
          | .other => [])))

/-- Lines 312–324: the outline pass with its width thresholds. -/
def outlineOps (bbox : Extent) (size pw : ℚ)
    (ds : List (TBoundary × MultiPoly × ℚ)) : List DrawOp :=
  ds.flatMap (fun t =>
    if t.2.2 < pw * 3 then []
    else
      t.2.1.flatMap (fun polygon =>
        polygon.flatMap (fun ring =>
          [.strokeRing (ring.map (viewport bbox size))
            (if t.2.2 < pw * 60 then 1 else 5/2)])))

/-- GEOS `contains` for the rectangular bbox (interior containment). -/
def bboxContains (e : Extent) (p : Pt) : Bool :=
  decide (e.x1 < p.1 ∧ p.1 < e.x2 ∧ e.y1 < p.2 ∧ p.2 < e.y2)

def bboxCentroid (e : Extent) : Pt := ((e.x1 + e.x2) / 2, (e.y1 + e.y2) / 2)

def bboxArea (e : Extent) : ℚ := (e.x2 - e.x1) * (e.y2 - e.y1)

/-- Lines 332–357: the label anchor point in world coordinates — the
stored `label_point` transformed to the output SRS, else the
point-on-surface of the bbox intersection, else the bbox centroid if it
is inside the shape; then, if the anchor is not inside the bbox, retry
with the intersection's point-on-surface when the intersection covers
at least a third of the bbox.  `none` is the `continue`. -/
def labelAnchor (env : TileEnv) (bbox : Extent) (bdry : TBoundary)
    (shape : MultiPoly) : Option Pt :=
  let pt0 : Option Pt :=
    match bdry.label_point with
    | some lp => some (env.ptToOut lp)
    | none =>
      match env.bboxInter bbox shape with
      | .ok pr => some pr.2
      | .error _ =>
        let c := bboxCentroid bbox
        if env.containsPt shape c then some c else none
  match pt0 with
  | none => none
  | some p1 =>
    if bboxContains bbox p1 then some p1
    else
      match env.bboxInter bbox shape with
      | .ok pr => if pr.1 < bboxArea bbox / 3 then none else some pr.2
      | .error _ => none

/-- Lines 327–391, one draw_shapes entry of the label pass: anchor
point selection with its fallbacks, the fit guard, then background
plate, drop shadow and text. -/
def labelOpsFor (env : TileEnv) (bbox : Extent) (size pw : ℚ)
    (t : TBoundary × MultiPoly × ℚ) : List DrawOp :=
  let ext_dim := t.2.2
  if ext_dim < pw * 20 then []
  else
    match labelAnchor env bbox t.1 t.2.1 with
    | none => []
    | some p2 =>
      let pt := viewport bbox size p2
      let txt := t.1.name
      let fs : ℚ := if ext_dim > size * pw then 18 else 12
      let te := env.textExtents fs txt
      let x_off := te.1
      let y_off := te.2.1
      let tw := te.2.2.1
      let th := te.2.2.2
      if tw < ext_dim / pw / 5 ∧ th < ext_dim / pw / 5 ∧
         0 < pt.1 - x_off - tw/2 - 4 ∧ 0 < pt.2 - th - 4 ∧
         pt.1 - x_off + tw/2 + 7 < size ∧ pt.2 + 6 < size then
        [.fillRect (pt.1 - x_off - tw/2 - 4) (pt.2 - th - 4)
            (tw + 9) (th + 8),
         .fillRect (pt.1 - x_off - tw/2 - 4) (pt.2 - th - 4)
            (tw + 11) (th + 10),
         .text (pt.1 - x_off - tw/2) pt.2 txt x_off y_off tw th]
      else []

/-- The label pass over all of `draw_shapes`. -/
def drawLabels (env : TileEnv) (bbox : Extent) (size pw : ℚ)
    (ds : List (TBoundary × MultiPoly × ℚ)) : List DrawOp :=
  ds.flatMap (labelOpsFor env bbox size pw)

/-- `boundaries_map_tiles` (lines 130–403). -/
def boundaries_map_tiles (env : TileEnv) (set_slug : String)
    (boundary_slug : Option String) (req : TileReq) : TileResult :=
  if env.hasImaging = false then .notFound "Cairo is not available."
  else
    match parseSizeSrs req with
    | none => .notFound "Invalid parameter."
    | some (size, _srs) =>
      match parseTileNums req with
      | none => .notFound "Invalid parameter."
      | some (tx, ty, tz) =>
        let sizeQ : ℚ := size
        let g := tileGeomStage env sizeQ tx ty tz
        let boundaries :=
          tileBoundaries env set_slug boundary_slug sizeQ tx ty tz
        if boundaries.length = 0 then
          .resp ⟨200, "image/png", ⟨1, 1, []⟩⟩
        else
          let ds := mkDrawShapes env g.pixel_width boundaries
          .resp ⟨200, "image/png",
            ⟨size.toNat, size.toNat,
             fillOps g.bbox sizeQ ds ++
               outlineOps g.bbox sizeQ g.pixel_width ds ++
               drawLabels env g.bbox sizeQ g.pixel_width ds⟩⟩

/-! ### Helper lemmas and fixtures for the tile claims -/

theorem parseSizeSrs_bad_size (req : TileReq) (s : String)
    (hs : req.size = some s)
    (hbad : pyParseInt s = none ∨ ∀ n, pyParseInt s = some n →
      ¬(n = 256 ∨ n = 512 ∨ n = 1024)) :
    parseSizeSrs req = none := by
  unfold parseSizeSrs pyInt
  rw [hs]
  cases ht : pyParseInt s with
  | none => simp [ht]
  | some n =>
      rcases hbad with h | h
      · rw [ht] at h; exact Option.noConfusion h
      · have hn := h n ht
        simp [ht, hn]

theorem parseSizeSrs_bad_srs (req : TileReq) (s : String)
    (hs : req.srs = some s) (hbad : pyParseInt s = none) :
    parseSizeSrs req = none := by
  unfold parseSizeSrs pyInt
  cases ht : pyParseInt (req.size.getD "256") with
  | none => simp [ht]
  | some n =>
      by_cases hn : n = 256 ∨ n = 512 ∨ n = 1024
      · simp [ht, hn, hs, hbad]
      · simp [ht, hn]

theorem parseTileNums_bad (req : TileReq) (s : String)
    (hs : req.tile_x = some s ∨ req.tile_y = some s ∨ req.tile_zoom = some s)
    (hbad : pyParseInt s = none) :
    parseTileNums req = none := by
  have hb : pyInt (some s) "0" = none := by simp [pyInt, hbad]
  unfold parseTileNums
  rcases hs with h | h | h
  · rw [h, hb]
  · rw [h, hb]
    cases pyInt req.tile_x "0" <;> rfl
  · rw [h, hb]
    cases pyInt req.tile_x "0" <;> cases pyInt req.tile_y "0" <;> rfl

/-- An environment whose query finds nothing. -/
def exTileEnv : TileEnv :=
  { hasImaging := true
    tolerance := 1/5
    proj180x := 128
    transToDb := fun e => e
    query := fun _ _ _ => []
    simplify := fun s _ => s
    toOutSRS := fun s => s
    ptToOut := fun p => p
    bboxInter := fun _ _ => .error ()
    containsPt := fun _ _ => false
    textExtents := fun _ _ => (0, -10, 10, 10) }

def exTBdry : TBoundary :=
  ⟨"tb", "TB", some (0, 6), some (.tup [1, 2, 3]),
   [[[(0, 0), (100, 0), (100, 100), (0, 100), (0, 0)]]]⟩

/-! ### Claim theorems for the tile renderer -/

/-- C5: with valid parameters and a bounding-box query (after the
optional single-boundary filter) returning no boundaries, the endpoint
responds 200, `image/png`, with a 1×1 surface carrying no drawing
operations — a fresh (hence fully transparent) 1×1 image. -/
theorem tile_no_boundaries_transparent_png (env : TileEnv)
    (set_slug : String) (boundary_slug : Option String) (req : TileReq)
    (size srs tx ty tz : Int)
    (him : env.hasImaging = true)
    (hp : parseSizeSrs req = some (size, srs))
    (ht : parseTileNums req = some (tx, ty, tz))
    (hq : tileBoundaries env set_slug boundary_slug (size : ℚ) tx ty tz = []) :
    boundaries_map_tiles env set_slug boundary_slug req =
      .resp ⟨200, "image/png", ⟨1, 1, []⟩⟩ := by
  unfold boundaries_map_tiles
  rw [him, hp, ht]
  simp [hq]

/-- C5 witness: a request with default parameters over an empty
layer. -/
theorem tile_no_boundaries_transparent_png_witness :
    boundaries_map_tiles exTileEnv "water" none ⟨none, none, none, none, none⟩ =
      .resp ⟨200, "image/png", ⟨1, 1, []⟩⟩ :=
  tile_no_boundaries_transparent_png exTileEnv "water" none
    ⟨none, none, none, none, none⟩ 256 3857 0 0 0 rfl rfl rfl rfl

/-- C6: a non-numeric or disallowed `size`, a non-numeric `srs`, or a
non-numeric `tile_x`/`tile_y`/`tile_zoom` makes the endpoint raise
`Http404("Invalid parameter.")`. -/
theorem tile_invalid_params_404 (env : TileEnv) (set_slug : String)
    (boundary_slug : Option String) (req : TileReq)
    (him : env.hasImaging = true)
    (h : (∃ s, req.size = some s ∧
            (pyParseInt s = none ∨ ∀ n, pyParseInt s = some n →
              ¬(n = 256 ∨ n = 512 ∨ n = 1024))) ∨
         (∃ s, req.srs = some s ∧ pyParseInt s = none) ∨
         (∃ s, (req.tile_x = some s ∨ req.tile_y = some s ∨
                req.tile_zoom = some s) ∧ pyParseInt s = none)) :
    boundaries_map_tiles env set_slug boundary_slug req =
      .notFound "Invalid parameter." := by
  unfold boundaries_map_tiles
  rw [him]
  rcases h with ⟨s, hs, hbad⟩ | ⟨s, hs, hbad⟩ | ⟨s, hs, hbad⟩
  · rw [parseSizeSrs_bad_size req s hs hbad]
    rfl
  · rw [parseSizeSrs_bad_srs req s hs hbad]
    rfl
  · cases hp : parseSizeSrs req with
    | none => rfl
    | some v =>
        obtain ⟨size, srs⟩ := v
        rw [parseTileNums_bad req s hs hbad]
        rfl

/-- C6 witness: `size=300` (disallowed) and `tile_x=abc`
(non-numeric). -/
theorem tile_invalid_params_404_witness :
    boundaries_map_tiles exTileEnv "water" none
      ⟨some "300", none, some "abc", none, none⟩ =
      .notFound "Invalid parameter." :=
  tile_invalid_params_404 exTileEnv "water" none
    ⟨some "300", none, some "abc", none, none⟩ rfl
    (Or.inl ⟨"300", rfl, Or.inr (fun n hn => by
      rw [show pyParseInt "300" = some 300 from rfl] at hn
      obtain rfl := Option.some.inj hn
      decide)⟩)

/-- C7: the query loads the `simple_shape` column instead of `shape`
exactly when the code's pixel width in database units
`(db_bbox.extent[2]-db_bbox.extent[0])/size/2` exceeds
`app_settings.SIMPLE_SHAPE_TOLERANCE`. -/
theorem tile_simplified_field_iff (env : TileEnv) (size : ℚ)
    (tx ty tz : Int) :
    (tileGeomStage env size tx ty tz).shape_field = "simple_shape" ↔
      (tileGeomStage env size tx ty tz).pixel_width > env.tolerance := by
  unfold tileGeomStage shapeFieldFor
  by_cases h : pixelWidth (env.transToDb (tileBBox env.proj180x tx ty tz))
      size > env.tolerance <;> simp [h]

/-- C8: a queried boundary appears in `draw_shapes` (and hence in the
fill, outline and label passes, which all iterate `draw_shapes`) iff
the larger side of its simplified shape's extent is not smaller than
the code's pixel width. -/
theorem tile_small_shape_excluded (env : TileEnv) (pw : ℚ)
    (bs : List TBoundary) (b : TBoundary) (hb : b ∈ bs) :
    (∃ s e, (b, s, e) ∈ mkDrawShapes env pw bs) ↔
      ¬(max_extent (env.simplify b.shape pw) < pw) := by
  constructor
  · rintro ⟨s, e, hmem⟩
    rw [mkDrawShapes, List.mem_filterMap] at hmem
    obtain ⟨b', _, hsome⟩ := hmem
    simp only [mkDrawShape] at hsome
    split_ifs at hsome with h
    simp only [Option.some.injEq, Prod.mk.injEq] at hsome
    obtain ⟨rfl, -, -⟩ := hsome
    exact h
  · intro h
    refine ⟨env.toOutSRS (env.simplify b.shape pw),
            max_extent (env.simplify b.shape pw), ?_⟩
    rw [mkDrawShapes, List.mem_filterMap]
    refine ⟨b, hb, ?_⟩
    simp only [mkDrawShape]
    rw [if_neg h]

/-- C8 witness: a concrete boundary large enough to be kept. -/
theorem tile_small_shape_excluded_witness :
    (∃ s e, (exTBdry, s, e) ∈ mkDrawShapes exTileEnv 1 [exTBdry]) ↔
      ¬(max_extent (exTileEnv.simplify exTBdry.shape 1) < 1) :=
  tile_small_shape_excluded exTileEnv 1 [exTBdry] exTBdry (by simp)

/-- The region a drawing op touches lies inside `[0, size] × [0, size]`
(for `text`, the cairo ink box `(x+xoff, y+yoff)`–`(x+xoff+tw,
y+yoff+th)`; the `min`/`max` guard degenerate negative widths). -/
def opWithinBounds (size : ℚ) : DrawOp → Prop
  | .fillRect x y w h =>
      0 ≤ min x (x + w) ∧ max x (x + w) ≤ size ∧
      0 ≤ min y (y + h) ∧ max y (y + h) ≤ size
  | .text x y _ xoff yoff tw th =>
      0 ≤ min (x + xoff) (x + xoff + tw) ∧
      max (x + xoff) (x + xoff + tw) ≤ size ∧
      0 ≤ min (y + yoff) (y + yoff + th) ∧
      max (y + yoff) (y + yoff + th) ≤ size
  | _ => True

/-- The three ops emitted when the label fit guard holds are within the
tile, granted the font-metric ranges. -/
theorem guardOpsWithin (size : ℚ) (pt : Pt) (txt : String)
    (x_off y_off tw th : ℚ)
    (htw : 0 ≤ tw) (hth : 0 ≤ th)
    (hxo1 : -4 ≤ x_off) (hxo2 : x_off ≤ 7)
    (hyo1 : -(th + 4) ≤ y_off) (hyo2 : y_off ≤ 6 - th)
    (hg3 : 0 < pt.1 - x_off - tw/2 - 4) (hg4 : 0 < pt.2 - th - 4)
    (hg5 : pt.1 - x_off + tw/2 + 7 < size) (hg6 : pt.2 + 6 < size) :
    opWithinBounds size (.fillRect (pt.1 - x_off - tw/2 - 4)
        (pt.2 - th - 4) (tw + 9) (th + 8)) ∧
    opWithinBounds size (.fillRect (pt.1 - x_off - tw/2 - 4)
        (pt.2 - th - 4) (tw + 11) (th + 10)) ∧
    opWithinBounds size (.text (pt.1 - x_off - tw/2) pt.2 txt
        x_off y_off tw th) := by
  refine ⟨⟨le_min ?_ ?_, max_le ?_ ?_, le_min ?_ ?_, max_le ?_ ?_⟩,
          ⟨le_min ?_ ?_, max_le ?_ ?_, le_min ?_ ?_, max_le ?_ ?_⟩,
          ⟨le_min ?_ ?_, max_le ?_ ?_, le_min ?_ ?_, max_le ?_ ?_⟩⟩ <;>
    linarith

/-- Every op of the label pass for one entry comes from a label whose
fit guard held, with text metrics `(x_off, y_off, tw, th)` from
`text_extents`, and is the plate, the shadow or the text. -/
theorem mem_labelOpsFor (env : TileEnv) (bbox : Extent) (size pw : ℚ)
    (t : TBoundary × MultiPoly × ℚ) (op : DrawOp)
    (hop : op ∈ labelOpsFor env bbox size pw t) :
    ∃ (pt : Pt) (fs x_off y_off tw th : ℚ),
      env.textExtents fs t.1.name = (x_off, y_off, tw, th) ∧
      0 < pt.1 - x_off - tw/2 - 4 ∧ 0 < pt.2 - th - 4 ∧
      pt.1 - x_off + tw/2 + 7 < size ∧ pt.2 + 6 < size ∧
      (op = .fillRect (pt.1 - x_off - tw/2 - 4) (pt.2 - th - 4)
          (tw + 9) (th + 8) ∨
       op = .fillRect (pt.1 - x_off - tw/2 - 4) (pt.2 - th - 4)
          (tw + 11) (th + 10) ∨
       op = .text (pt.1 - x_off - tw/2) pt.2 t.1.name x_off y_off tw th) := by
  simp only [labelOpsFor] at hop
  by_cases h20 : t.2.2 < pw * 20
  · rw [if_pos h20] at hop
    exact absurd hop (List.not_mem_nil op)
  · rw [if_neg h20] at hop
    cases ha : labelAnchor env bbox t.1 t.2.1 with
    | none => rw [ha] at hop; exact absurd hop (List.not_mem_nil op)
    | some p2 =>
        rw [ha] at hop
        dsimp only at hop
        by_cases hfs : t.2.2 > size * pw
        · rw [if_pos hfs] at hop
          split_ifs at hop with hg
          · obtain ⟨-, -, hg3, hg4, hg5, hg6⟩ := hg
            refine ⟨viewport bbox size p2, 18,
              (env.textExtents 18 t.1.name).1,
              (env.textExtents 18 t.1.name).2.1,
              (env.textExtents 18 t.1.name).2.2.1,
              (env.textExtents 18 t.1.name).2.2.2, rfl,
              hg3, hg4, hg5, hg6, ?_⟩
            simpa using hop
          · exact absurd hop (List.not_mem_nil op)
        · rw [if_neg hfs] at hop
          split_ifs at hop with hg
          · obtain ⟨-, -, hg3, hg4, hg5, hg6⟩ := hg
            refine ⟨viewport bbox size p2, 12,
              (env.textExtents 12 t.1.name).1,
              (env.textExtents 12 t.1.name).2.1,
              (env.textExtents 12 t.1.name).2.2.1,
              (env.textExtents 12 t.1.name).2.2.2, rfl,
              hg3, hg4, hg5, hg6, ?_⟩
            simpa using hop
          · exact absurd hop (List.not_mem_nil op)

/-- C9 (amended): every label drawn by the tile renderer passed the fit
guard, and then its background plate and drop shadow always lie within
the tile's pixel bounds; its text ink box also does provided the font
metrics returned by `text_extents` satisfy `0 ≤ tw`, `0 ≤ th`,
`-4 ≤ x_bearing ≤ 7` and `-(th+4) ≤ y_bearing ≤ 6-th` (as for ordinary
horizontal text, whose ink box sits just above the baseline); a label
failing the guard is skipped entirely (no op is emitted for it). -/
theorem label_ops_within_tile (env : TileEnv) (bbox : Extent)
    (size pw : ℚ) (ds : List (TBoundary × MultiPoly × ℚ))
    (hfont : ∀ fs s,
      0 ≤ (env.textExtents fs s).2.2.1 ∧
      0 ≤ (env.textExtents fs s).2.2.2 ∧
      -4 ≤ (env.textExtents fs s).1 ∧ (env.textExtents fs s).1 ≤ 7 ∧
      -((env.textExtents fs s).2.2.2 + 4) ≤ (env.textExtents fs s).2.1 ∧
      (env.textExtents fs s).2.1 ≤ 6 - (env.textExtents fs s).2.2.2) :
    ∀ op ∈ drawLabels env bbox size pw ds, opWithinBounds size op := by
  intro op hop
  rw [drawLabels, List.mem_flatMap] at hop
  obtain ⟨t, -, hop⟩ := hop
  obtain ⟨pt, fs, x_off, y_off, tw, th, hte, hg3, hg4, hg5, hg6, hops⟩ :=
    mem_labelOpsFor env bbox size pw t op hop
  have hf := hfont fs t.1.name
  rw [hte] at hf
  obtain ⟨htw, hth, hxo1, hxo2, hyo1, hyo2⟩ := hf
  have hsafe := guardOpsWithin size pt t.1.name x_off y_off tw th
    htw hth hxo1 hxo2 hyo1 hyo2 hg3 hg4 hg5 hg6
  rcases hops with rfl | rfl | rfl
  · exact hsafe.1
  · exact hsafe.2.1
  · exact hsafe.2.2

def exLabelShape : MultiPoly :=
  [[[(0, 0), (256, 0), (256, 256), (0, 256), (0, 0)]]]

def exLabelBdry : TBoundary := ⟨"big", "TB", some (128, 6), none, exLabelShape⟩

theorem exDrawLabels :
    drawLabels exTileEnv ⟨0, 0, 256, 256⟩ 256 1
        [(exLabelBdry, exLabelShape, 1000)] =
      [.fillRect 119 235 19 18, .fillRect 119 235 21 20,
       .text 123 249 "TB" 0 (-10) 10 10] := by
  norm_num [drawLabels, labelOpsFor, labelAnchor, viewport, bboxContains,
    exTileEnv, exLabelBdry]

/-- C9 witness: a concretely drawn background plate, within bounds. -/
theorem label_ops_within_tile_witness :
    opWithinBounds 256 (.fillRect 119 235 19 18) := by
  refine label_ops_within_tile exTileEnv ⟨0, 0, 256, 256⟩ 256 1
    [(exLabelBdry, exLabelShape, 1000)] ?_ (.fillRect 119 235 19 18) ?_
  · intro fs s
    norm_num [exTileEnv]
  · rw [exDrawLabels]
    simp

/-- An environment whose text metrics put the ink box below the
baseline (`y_bearing = 0`). -/
def cexLabelEnv : TileEnv :=
  { exTileEnv with textExtents := fun _ _ => (0, 0, 10, 10) }

theorem cexDrawLabels :
    drawLabels cexLabelEnv ⟨0, 0, 256, 256⟩ 256 1
        [(exLabelBdry, exLabelShape, 1000)] =
      [.fillRect 119 235 19 18, .fillRect 119 235 21 20,
       .text 123 249 "TB" 0 0 10 10] := by
  norm_num [drawLabels, labelOpsFor, labelAnchor, viewport, bboxContains,
    cexLabelEnv, exTileEnv, exLabelBdry]

/-- C9 counterexample: the fit guard does not bound the text ink box
for all `text_extents` outputs — with `y_bearing = 0` the drawn text's
ink box reaches y = 259 on a 256-pixel tile, outside the tile's pixel
bounds, although the label was drawn, not skipped. -/
theorem label_text_escapes_tile :
    ∃ op ∈ drawLabels cexLabelEnv ⟨0, 0, 256, 256⟩ 256 1
        [(exLabelBdry, exLabelShape, 1000)],
      ¬ opWithinBounds 256 op := by
  refine ⟨.text 123 249 "TB" 0 0 10 10, by rw [cexDrawLabels]; simp, ?_⟩
  intro h
  obtain ⟨-, -, -, h4⟩ := h
  rw [max_le_iff] at h4
  norm_num at h4

end Bnd
